import Mathlib

/-!
# Private position entry/exit — verification of the core library

Shallow embedding of the private-trading core:

* `src/lib/types/private-trading.ts` — enums and record types;
* `src/lib/sdk/privacy/shield.ts` — `shieldTokens`, `getShieldedBalance`,
  `getTransactionStatus`;
* `src/lib/sdk/privacy/unshield.ts` — `unshieldTokens`;
* `src/lib/sdk/privacy/incognito.ts` — `deriveIncognitoAddress`,
  `getIncognitoBalance`, `simpleHash`;
* `src/lib/privateTradingService.ts` — the orchestration service.

JavaScript effects are made explicit: fallible calls return
`Except String α` (the `String` is the thrown `Error`'s message),
`Math.random()` output becomes an explicit argument, `Date.now()` becomes an
explicit `now : Nat` argument, and the service's module imports become an
`SdkEnv` record of collaborator functions (exactly the functions the tests
mock with jest).  JavaScript 32-bit integer arithmetic is modelled on `Int`
with explicit reduction mod `2 ^ 32`, and `parseFloat` is modelled exactly,
over exact rationals.
-/

set_option maxRecDepth 4000

namespace PrivateTrading

/-! ## Data model (`src/lib/types/private-trading.ts`) -/

/-- `SupportedToken` from `private-trading.ts`. -/
inductive SupportedToken
  | usdc | usdt | dai | weth | wbtc
deriving DecidableEq

/-- `TransactionState` from `private-trading.ts`. -/
inductive TransactionState
  | idle | pending | confirming | indexing | completed | failed
deriving DecidableEq

/-- `PrivacyPoolStatus` from `private-trading.ts`. -/
inductive PrivacyPoolStatus
  | notInitialized | ready | shielding | unshielding | error
deriving DecidableEq

/-- `TradeType` from `private-trading.ts`. -/
inductive TradeType
  | entry | exit
deriving DecidableEq

/-- `PrivateTradeConfig` from `private-trading.ts`.  Slippage is an exact
rational standing for the JS number. -/
structure PrivateTradeConfig where
  tradeType : TradeType
  token : SupportedToken
  amount : String
  slippageTolerance : ℚ
  autoUnshield : Option Bool := none
  maxIndexingTime : Option Nat := none
deriving DecidableEq

/-- `PrivateFundsStatus` from `private-trading.ts`. -/
structure PrivateFundsStatus where
  shieldedBalance : String
  incognitoBalance : String
  mainWalletBalance : String
  privacyPoolStatus : PrivacyPoolStatus
  isReady : Bool
  transactionState : TransactionState
  error : Option String := none
  lastUpdated : Nat
deriving DecidableEq

/-- `IncognitoWallet` from `private-trading.ts`. -/
structure IncognitoWallet where
  address : String
  mainWalletAddress : String
  chainId : Int
  isActive : Bool
  createdAt : Nat
  label : Option String := none
deriving DecidableEq

/-- `ShieldTransaction` from `private-trading.ts` (the optional
`confirmedAt` and `error` fields are never set by the service). -/
structure ShieldTransaction where
  txHash : String
  token : SupportedToken
  amount : String
  state : TransactionState
  startedAt : Nat
deriving DecidableEq

/-- `UnshieldTransaction` from `private-trading.ts`. -/
structure UnshieldTransaction where
  txHash : String
  token : SupportedToken
  amount : String
  destinationAddress : String
  state : TransactionState
  startedAt : Nat
deriving DecidableEq

/-- The anonymous `{ txHash, state }` result of `shieldTokens` /
`unshieldTokens`. -/
structure SubmitResult where
  txHash : String
  state : TransactionState
deriving DecidableEq

/-! ## JavaScript number model: `parseFloat` -/

/-- The values JS `parseFloat` can produce.  A finite decimal literal is
kept exactly as a scaled decimal `mantissa * 10 ^ exponent10` (the signed
mantissa is the concatenated integer-and-fraction digits); this represents
every parsed literal exactly, and in particular its comparisons with zero
are the sign of the mantissa. -/
inductive JSNumber
  | nan
  | posInf
  | negInf
  | finite (mantissa exponent10 : Int)
deriving DecidableEq

/-- JS `x > 0` on a `parseFloat` result (`NaN > 0` is `false`; a finite
`mantissa * 10 ^ exponent10` is positive iff its mantissa is). -/
def JSNumber.gtZero : JSNumber → Bool
  | .nan => false
  | .posInf => true
  | .negInf => false
  | .finite m _ => decide (0 < m)

/-- JS `x <= 0` on a `parseFloat` result (`NaN <= 0` is `false`; a finite
`mantissa * 10 ^ exponent10` is `<= 0` iff its mantissa is). -/
def JSNumber.leZero : JSNumber → Bool
  | .nan => false
  | .posInf => false
  | .negInf => true
  | .finite m _ => decide (m ≤ 0)

/-- ASCII decimal digit. -/
def isDigitChar (c : Char) : Bool := 48 ≤ c.toNat && c.toNat ≤ 57

/-- Whitespace skipped by `parseFloat` before the literal. -/
def jsWhitespace (c : Char) : Bool :=
  c = ' ' || c = '\t' || c = '\n' || c = '\r' || c = '\x0b' || c = '\x0c'

/-- Numeric value of a digit string (most significant first). -/
def digitsToNat (l : List Char) : Nat :=
  l.foldl (fun a c => 10 * a + (c.toNat - 48)) 0

/-- Exponent part after the `e`/`E`: optional sign, then digits; an empty
digit run contributes exponent `0` (JS stops the literal before the `e`). -/
def parseExponent (l : List Char) : Int :=
  let signed : Bool × List Char :=
    match l with
    | '-' :: rest => (true, rest)
    | '+' :: rest => (false, rest)
    | _ => (false, l)
  let ds := signed.2.takeWhile isDigitChar
  if ds = [] then 0
  else if signed.1 then -(digitsToNat ds : Int) else (digitsToNat ds : Int)

/-- JS `parseFloat` on a character list: skip whitespace, optional sign,
then the longest prefix that is `Infinity` or
`digits [. digits] [e sign digits]` or `. digits [e sign digits]`;
no digit at all gives `NaN`. -/
def parseFloatList (l : List Char) : JSNumber :=
  let l1 := l.dropWhile jsWhitespace
  let signed : Bool × List Char :=
    match l1 with
    | '-' :: rest => (true, rest)
    | '+' :: rest => (false, rest)
    | _ => (false, l1)
  let neg := signed.1
  let l2 := signed.2
  if l2.take 8 = "Infinity".data then
    if neg then JSNumber.negInf else JSNumber.posInf
  else
    let intPart := l2.takeWhile isDigitChar
    let l3 := l2.dropWhile isDigitChar
    let fracSplit : List Char × List Char :=
      match l3 with
      | '.' :: rest => (rest.takeWhile isDigitChar, rest.dropWhile isDigitChar)
      | _ => ([], l3)
    let fracPart := fracSplit.1
    let l4 := fracSplit.2
    if intPart = [] ∧ fracPart = [] then JSNumber.nan
    else
      let mant : Nat := digitsToNat (intPart ++ fracPart)
      let e : Int :=
        match l4 with
        | 'e' :: rest => parseExponent rest
        | 'E' :: rest => parseExponent rest
        | _ => 0
      JSNumber.finite (if neg then -(mant : Int) else (mant : Int))
        (e - fracPart.length)

/-- JS `parseFloat` on a string. -/
def parseFloat (s : String) : JSNumber := parseFloatList s.data

/-! ## The address / transaction-hash shapes -/

/-- ASCII hex digit, upper or lower case: the class `[a-fA-F0-9]`. -/
def isHexDigit (c : Char) : Bool :=
  (48 ≤ c.toNat && c.toNat ≤ 57) ||
  (97 ≤ c.toNat && c.toNat ≤ 102) ||
  (65 ≤ c.toNat && c.toNat ≤ 70)

/-- The regex `^0x[a-fA-F0-9]{40}$` on a character list. -/
def matchesAddressList : List Char → Bool
  | '0' :: 'x' :: rest => rest.length = 40 && rest.all isHexDigit
  | _ => false

/-- The 20-byte hex address shape `^0x[a-fA-F0-9]{40}$`. -/
def matchesAddressRegex (s : String) : Bool := matchesAddressList s.data

/-- The regex `^0x[a-fA-F0-9]{64}$` on a character list. -/
def matchesTxHashList : List Char → Bool
  | '0' :: 'x' :: rest => rest.length = 64 && rest.all isHexDigit
  | _ => false

/-- The 32-byte transaction hash shape `^0x[a-fA-F0-9]{64}$`. -/
def matchesTxHashRegex (s : String) : Bool := matchesTxHashList s.data

/-! ## 32-bit hash of `incognito.ts` (`simpleHash`) -/

/-- JS `ToInt32`: reduce an integer to the signed 32-bit representative in
`[-2 ^ 31, 2 ^ 31)`. -/
def jsToInt32 (n : Int) : Int := (n + 2 ^ 31) % 2 ^ 32 - 2 ^ 31

/-- One iteration of `simpleHash`'s loop.  The source computes
`hash = (hash << 5) - hash + char` followed by `hash = hash & hash`;
modulo `2 ^ 32` this is exactly `31 * hash + char` reduced to a signed
32-bit value, because `<<` and `&` both coerce through `ToInt32` and
`ToInt32` is the identity modulo `2 ^ 32`. -/
def hashStep (hash : Int) (c : Char) : Int := jsToInt32 (31 * hash + c.toNat)

/-- JS `Number.prototype.toString(16)` digits, lowercase. -/
def hexDigitChar (d : Nat) : Char :=
  if d < 10 then Char.ofNat (48 + d) else Char.ofNat (87 + d)

/-- Hex digits of `n`, most significant first, no leading zeros; `[]` for
`0` (fuel-driven so that it reduces in the kernel; the fuel argument is
always at least the recursion depth when called through `natToHex`). -/
def natToHexAux : Nat → Nat → List Char
  | 0, _ => []
  | fuel + 1, n =>
    if n = 0 then [] else natToHexAux fuel (n / 16) ++ [hexDigitChar (n % 16)]

/-- JS `n.toString(16)` for a nonnegative integer. -/
def natToHex (n : Nat) : List Char :=
  if n = 0 then ['0'] else natToHexAux (n + 1) n

/-- JS `String.prototype.padStart(n, c)`. -/
def padStartList (l : List Char) (n : Nat) (c : Char) : List Char :=
  List.replicate (n - l.length) c ++ l

/-- JS `String.prototype.padEnd(n, c)`. -/
def padEndList (l : List Char) (n : Nat) (c : Char) : List Char :=
  l ++ List.replicate (n - l.length) c

/-- `simpleHash` from `incognito.ts`: fold the 31-based 32-bit hash over the
input, take `Math.abs`, render as hex padded to 8 characters, repeat five
times and keep the first 40 characters. -/
def simpleHash (input : String) : List Char :=
  let hash := input.data.foldl hashStep 0
  let hexHash := padStartList (natToHex hash.natAbs) 8 '0'
  (hexHash ++ hexHash ++ hexHash ++ hexHash ++ hexHash).take 40

/-! ## SDK modules -/

/-- `deriveIncognitoAddress` from `incognito.ts`: validate the main wallet
address, then return `0x` + the first 40 characters of
`simpleHash(mainWalletAddress + chainId.toString())`. -/
def deriveIncognitoAddress (mainWalletAddress : String) (chainId : Int) :
    Except String String :=
  if mainWalletAddress == "" || !matchesAddressRegex mainWalletAddress then
    .error "Invalid main wallet address"
  else
    .ok (String.mk ('0' :: 'x' :: simpleHash (mainWalletAddress ++ toString chainId)))

/-- `getIncognitoBalance` from `incognito.ts`: validate the address, then
return the mock balance `"0"`. -/
def getIncognitoBalance (incognitoAddress : String) (_token : SupportedToken)
    (_chainId : Int) : Except String String :=
  if incognitoAddress == "" || !matchesAddressRegex incognitoAddress then
    .error "Invalid incognito address"
  else
    .ok "0"

/-- The mock transaction hash `` `0x${rnd.padEnd(64, '0')}` `` where `rnd`
stands for `Math.random().toString(16).slice(2)`. -/
def mockTxHash (rnd : String) : String :=
  String.mk ('0' :: 'x' :: padEndList rnd.data 64 '0')

/-- `shieldTokens` from `shield.ts`: validate the wallet address, then the
amount (`!amount || parseFloat(amount) <= 0`), then submit, returning the
mock transaction hash in state `PENDING`.  The randomness consumed by
`Math.random()` is the explicit first argument. -/
def shieldTokens (rnd : String) (walletAddress : String) (_token : SupportedToken)
    (amount : String) (_chainId : Int) : Except String SubmitResult :=
  if walletAddress == "" || !matchesAddressRegex walletAddress then
    .error "Invalid wallet address"
  else if amount.isEmpty || (parseFloat amount).leZero then
    .error "Invalid amount"
  else
    .ok { txHash := mockTxHash rnd, state := TransactionState.pending }

/-- `getShieldedBalance` from `shield.ts`: validate the wallet address, then
return the mock balance `"0"`. -/
def getShieldedBalance (walletAddress : String) (_token : SupportedToken)
    (_chainId : Int) : Except String String :=
  if walletAddress == "" || !matchesAddressRegex walletAddress then
    .error "Invalid wallet address"
  else
    .ok "0"

/-- `getTransactionStatus` from `shield.ts`: validate the transaction hash,
then return the mock state `COMPLETED`. -/
def getTransactionStatus (txHash : String) : Except String TransactionState :=
  if txHash == "" || !matchesTxHashRegex txHash then
    .error "Invalid transaction hash"
  else
    .ok TransactionState.completed

/-- `unshieldTokens` from `unshield.ts`: validate the destination address,
then the amount, then submit. -/
def unshieldTokens (rnd : String) (destinationAddress : String)
    (_token : SupportedToken) (amount : String) (_chainId : Int) :
    Except String SubmitResult :=
  if destinationAddress == "" || !matchesAddressRegex destinationAddress then
    .error "Invalid destination address"
  else if amount.isEmpty || (parseFloat amount).leZero then
    .error "Invalid amount"
  else
    .ok { txHash := mockTxHash rnd, state := TransactionState.pending }

/-! ## The orchestration service (`privateTradingService.ts`)

The service imports the shield / unshield / incognito modules; in the
embedding those collaborators are an explicit record, instantiated with the
concrete module functions by `realEnv` (the tests replace them with jest
mocks in exactly the same way). -/

/-- The SDK collaborators the service calls. -/
structure SdkEnv where
  shieldTokens : String → SupportedToken → String → Int → Except String SubmitResult
  unshieldTokens : String → SupportedToken → String → Int → Except String SubmitResult
  getShieldedBalance : String → SupportedToken → Int → Except String String
  getIncognitoBalance : String → SupportedToken → Int → Except String String
  getTransactionStatus : String → Except String TransactionState
  deriveIncognitoAddress : String → Int → Except String String

/-- The concrete modules, with the `Math.random()` payloads of the shield
and unshield submissions passed in. -/
def realEnv (rndShield rndUnshield : String) : SdkEnv where
  shieldTokens := shieldTokens rndShield
  unshieldTokens := unshieldTokens rndUnshield
  getShieldedBalance := getShieldedBalance
  getIncognitoBalance := getIncognitoBalance
  getTransactionStatus := getTransactionStatus
  deriveIncognitoAddress := deriveIncognitoAddress

/-- `DEFAULT_MAX_INDEXING_TIME` (70 seconds in ms). -/
def DEFAULT_MAX_INDEXING_TIME : Nat := 70000

/-- `POLLING_INTERVAL` (2 seconds in ms). -/
def POLLING_INTERVAL : Nat := 2000

/-- `preparePrivateFunds`: shield from `mainWalletAddress`; wrap any thrown
error with the phase prefix. -/
def preparePrivateFunds (env : SdkEnv) (chainId : Int) (mainWalletAddress : String)
    (config : PrivateTradeConfig) (now : Nat) : Except String ShieldTransaction :=
  match env.shieldTokens mainWalletAddress config.token config.amount chainId with
  | .ok r =>
    .ok { txHash := r.txHash, token := config.token, amount := config.amount,
          state := r.state, startedAt := now }
  | .error e => .error ("Failed to prepare private funds: " ++ e)

/-- `unshieldForTrading`: unshield to `incognitoWallet.address`, recording
it as the transaction's `destinationAddress`; wrap thrown errors. -/
def unshieldForTrading (env : SdkEnv) (chainId : Int) (incognitoWallet : IncognitoWallet)
    (config : PrivateTradeConfig) (now : Nat) : Except String UnshieldTransaction :=
  match env.unshieldTokens incognitoWallet.address config.token config.amount chainId with
  | .ok r =>
    .ok { txHash := r.txHash, token := config.token, amount := config.amount,
          destinationAddress := incognitoWallet.address, state := r.state,
          startedAt := now }
  | .error e => .error ("Failed to unshield for trading: " ++ e)

/-- `exitPrivatePosition`: shield from `incognitoWallet.address` back toward
the pool; wrap thrown errors. -/
def exitPrivatePosition (env : SdkEnv) (chainId : Int) (incognitoWallet : IncognitoWallet)
    (config : PrivateTradeConfig) (now : Nat) : Except String ShieldTransaction :=
  match env.shieldTokens incognitoWallet.address config.token config.amount chainId with
  | .ok r =>
    .ok { txHash := r.txHash, token := config.token, amount := config.amount,
          state := r.state, startedAt := now }
  | .error e => .error ("Failed to exit private position: " ++ e)

/-- `deriveIncognitoWallet`: derive the address, stamp creation time, mark
active; the **empty** label is dropped (`...(label && { label })` spreads
nothing for a falsy label); wrap thrown errors. -/
def deriveIncognitoWallet (env : SdkEnv) (chainId : Int) (mainWalletAddress : String)
    (label : Option String) (now : Nat) : Except String IncognitoWallet :=
  match env.deriveIncognitoAddress mainWalletAddress chainId with
  | .ok address =>
    .ok { address := address, mainWalletAddress := mainWalletAddress,
          chainId := chainId, isActive := true, createdAt := now,
          label := match label with
            | some l => if l.isEmpty then none else some l
            | none => none }
  | .error e => .error ("Failed to derive incognito wallet: " ++ e)

/-- The error snapshot returned by `checkPrivateFundsStatus`'s catch block. -/
def errorStatus (e : String) (now : Nat) : PrivateFundsStatus :=
  { shieldedBalance := "0", incognitoBalance := "0", mainWalletBalance := "0",
    privacyPoolStatus := PrivacyPoolStatus.error, isReady := false,
    transactionState := TransactionState.failed, error := some e,
    lastUpdated := now }

/-- `checkPrivateFundsStatus`: read the shielded balance for the main wallet
and the incognito balance for the incognito address (in that order — a
throw from the first read skips the second), hard-code the main-wallet
balance to `"0"`, and derive the readiness signal with `parseFloat(b) > 0`.
A throw from either read is caught and turned into `errorStatus`; the
function itself is total — it never throws. -/
def checkPrivateFundsStatus (env : SdkEnv) (chainId : Int)
    (mainWalletAddress incognitoAddress : String) (token : SupportedToken)
    (now : Nat) : PrivateFundsStatus :=
  match env.getShieldedBalance mainWalletAddress token chainId with
  | .error e => errorStatus e now
  | .ok shieldedBalance =>
    match env.getIncognitoBalance incognitoAddress token chainId with
    | .error e => errorStatus e now
    | .ok incognitoBalance =>
      let mainWalletBalance := "0"
      let hasShieldedFunds := (parseFloat shieldedBalance).gtZero
      let hasIncognitoFunds := (parseFloat incognitoBalance).gtZero
      let isReady := hasShieldedFunds || hasIncognitoFunds
      { shieldedBalance := shieldedBalance, incognitoBalance := incognitoBalance,
        mainWalletBalance := mainWalletBalance,
        privacyPoolStatus :=
          if isReady then PrivacyPoolStatus.ready else PrivacyPoolStatus.notInitialized,
        isReady := isReady, transactionState := TransactionState.idle,
        error := none, lastUpdated := now }

/-- The effective deadline of `waitForTransactionConfirmation`:
`maxWaitTime || DEFAULT_MAX_INDEXING_TIME` tests JS falsiness, so both an
omitted argument and an explicit `0` select the 70000 ms default. -/
def effectiveMaxTime (maxWaitTime : Option Nat) : Nat :=
  match maxWaitTime with
  | none => DEFAULT_MAX_INDEXING_TIME
  | some t => if t = 0 then DEFAULT_MAX_INDEXING_TIME else t

/-- The polling loop of `waitForTransactionConfirmation`.  `poll n` is the
result of the `n`-th `getTransactionStatus` call on the transaction hash
being awaited; time is modelled by the loop structure itself: the `n`-th
`while` guard sees elapsed time `n * POLLING_INTERVAL` (each poll is
instantaneous and each sleep takes exactly the polling interval).  A
`completed` poll returns immediately; a `failed` poll throws
`Transaction failed`; a query error propagates; running out the deadline
throws `Transaction confirmation timeout`. -/
def waitLoop (poll : Nat → Except String TransactionState) (maxTime : Nat)
    (n : Nat) : Except String TransactionState :=
  if _h : n * POLLING_INTERVAL < maxTime then
    match poll n with
    | .error e => .error e
    | .ok s =>
      if s = TransactionState.completed then .ok s
      else if s = TransactionState.failed then .error "Transaction failed"
      else waitLoop poll maxTime (n + 1)
  else
    .error "Transaction confirmation timeout"
termination_by maxTime - n * POLLING_INTERVAL
decreasing_by simp only [POLLING_INTERVAL] at *; omega

/-- `waitForTransactionConfirmation`: resolve the effective deadline, then
run the polling loop from elapsed time `0`. -/
def waitForTransactionConfirmation (poll : Nat → Except String TransactionState)
    (maxWaitTime : Option Nat) : Except String TransactionState :=
  waitLoop poll (effectiveMaxTime maxWaitTime) 0

/-! ## Auxiliary notions used by the statements -/

/-- A poll result that lets the confirmation loop continue: a successful
status query whose state is neither `completed` nor `failed`. -/
def nonTerminal (r : Except String TransactionState) : Prop :=
  ∃ s, r = Except.ok s ∧ s ≠ TransactionState.completed ∧ s ≠ TransactionState.failed

/-- An observer environment whose submission calls succeed and record the
address they were handed inside the returned transaction hash; running the
service against it makes the address routing of each phase visible in the
result (the embedding-level analogue of the jest `toHaveBeenCalledWith`
assertions in the e2e suite). -/
def recordingEnv : SdkEnv where
  shieldTokens := fun src _ _ _ =>
    .ok { txHash := "src:" ++ src, state := TransactionState.pending }
  unshieldTokens := fun dst _ _ _ =>
    .ok { txHash := "dst:" ++ dst, state := TransactionState.pending }
  getShieldedBalance := fun _ _ _ => .ok "0"
  getIncognitoBalance := fun _ _ _ => .ok "0"
  getTransactionStatus := fun _ => .ok TransactionState.completed
  deriveIncognitoAddress := fun a _ => .ok a

/-! ## Claims about the funds-status aggregator -/

/-- C1: `checkPrivateFundsStatus` never throws — it is a total function into
`PrivateFundsStatus` — and whenever the shielded-balance read throws, or it
succeeds and the incognito-balance read throws, the returned snapshot has
`privacyPoolStatus = ERROR`, `isReady = false`, `transactionState = FAILED`,
and the error field populated with the thrown error's message. -/
theorem checkPrivateFundsStatus_degrades_to_error_snapshot
    (env : SdkEnv) (chainId : Int) (mainWalletAddress incognitoAddress : String)
    (token : SupportedToken) (now : Nat) (e : String)
    (h : env.getShieldedBalance mainWalletAddress token chainId = Except.error e ∨
      (∃ b, env.getShieldedBalance mainWalletAddress token chainId = Except.ok b ∧
        env.getIncognitoBalance incognitoAddress token chainId = Except.error e)) :
    (checkPrivateFundsStatus env chainId mainWalletAddress incognitoAddress token
        now).privacyPoolStatus = PrivacyPoolStatus.error ∧
    (checkPrivateFundsStatus env chainId mainWalletAddress incognitoAddress token
        now).isReady = false ∧
    (checkPrivateFundsStatus env chainId mainWalletAddress incognitoAddress token
        now).transactionState = TransactionState.failed ∧
    (checkPrivateFundsStatus env chainId mainWalletAddress incognitoAddress token
        now).error = some e := by
  rcases h with h | ⟨b, hb, h⟩
  · simp [checkPrivateFundsStatus, h, errorStatus]
  · simp [checkPrivateFundsStatus, hb, h, errorStatus]

/-- Witness for C1 at a concrete input: the real shielded-balance read
throws `Invalid wallet address` on the empty main address, and the snapshot
degrades as claimed. -/
theorem checkPrivateFundsStatus_degrades_to_error_snapshot_witness :
    ((realEnv "" "").getShieldedBalance "" SupportedToken.usdc 1 =
        Except.error "Invalid wallet address" ∨
      (∃ b, (realEnv "" "").getShieldedBalance "" SupportedToken.usdc 1 = Except.ok b ∧
        (realEnv "" "").getIncognitoBalance "" SupportedToken.usdc 1 =
          Except.error "Invalid wallet address")) ∧
    (checkPrivateFundsStatus (realEnv "" "") 1 "" "" SupportedToken.usdc
        7).privacyPoolStatus = PrivacyPoolStatus.error ∧
    (checkPrivateFundsStatus (realEnv "" "") 1 "" "" SupportedToken.usdc
        7).isReady = false ∧
    (checkPrivateFundsStatus (realEnv "" "") 1 "" "" SupportedToken.usdc
        7).transactionState = TransactionState.failed ∧
    (checkPrivateFundsStatus (realEnv "" "") 1 "" "" SupportedToken.usdc
        7).error = some "Invalid wallet address" :=
  ⟨Or.inl rfl,
    checkPrivateFundsStatus_degrades_to_error_snapshot (realEnv "" "") 1 "" ""
      SupportedToken.usdc 7 "Invalid wallet address" (Or.inl rfl)⟩

/-- C3: when both balance reads succeed, the snapshot's `isReady` is exactly
"the shielded balance parses (JS `parseFloat`) to a number strictly greater
than zero, or the incognito balance does", and `privacyPoolStatus` is
`READY` iff `isReady`, else `NOT_INITIALIZED`. -/
theorem checkPrivateFundsStatus_readiness
    (env : SdkEnv) (chainId : Int) (mainWalletAddress incognitoAddress : String)
    (token : SupportedToken) (now : Nat) (s i : String)
    (hs : env.getShieldedBalance mainWalletAddress token chainId = Except.ok s)
    (hi : env.getIncognitoBalance incognitoAddress token chainId = Except.ok i) :
    (checkPrivateFundsStatus env chainId mainWalletAddress incognitoAddress token
        now).isReady = ((parseFloat s).gtZero || (parseFloat i).gtZero) ∧
    ((checkPrivateFundsStatus env chainId mainWalletAddress incognitoAddress token
        now).privacyPoolStatus = PrivacyPoolStatus.ready ↔
      (checkPrivateFundsStatus env chainId mainWalletAddress incognitoAddress token
        now).isReady = true) ∧
    ((checkPrivateFundsStatus env chainId mainWalletAddress incognitoAddress token
        now).isReady = false →
      (checkPrivateFundsStatus env chainId mainWalletAddress incognitoAddress token
        now).privacyPoolStatus = PrivacyPoolStatus.notInitialized) := by
  refine ⟨?_, ?_, ?_⟩ <;>
    simp only [checkPrivateFundsStatus, hs, hi] <;>
    by_cases h1 : (parseFloat s).gtZero = true <;>
    by_cases h2 : (parseFloat i).gtZero = true <;>
    simp [h1, h2]

/-- Witness for C3 at a concrete input: with the real (mock) reads both
balances are `"0"`, neither parses positive, and the snapshot is not ready
and `NOT_INITIALIZED`. -/
theorem checkPrivateFundsStatus_readiness_witness :
    (realEnv "" "").getShieldedBalance "0x1234567890123456789012345678901234567890"
        SupportedToken.usdc 1 = Except.ok "0" ∧
    (realEnv "" "").getIncognitoBalance "0x9876543210987654321098765432109876543210"
        SupportedToken.usdc 1 = Except.ok "0" ∧
    ((checkPrivateFundsStatus (realEnv "" "") 1
        "0x1234567890123456789012345678901234567890"
        "0x9876543210987654321098765432109876543210" SupportedToken.usdc
        7).isReady = ((parseFloat "0").gtZero || (parseFloat "0").gtZero) ∧
      ((checkPrivateFundsStatus (realEnv "" "") 1
          "0x1234567890123456789012345678901234567890"
          "0x9876543210987654321098765432109876543210" SupportedToken.usdc
          7).privacyPoolStatus = PrivacyPoolStatus.ready ↔
        (checkPrivateFundsStatus (realEnv "" "") 1
          "0x1234567890123456789012345678901234567890"
          "0x9876543210987654321098765432109876543210" SupportedToken.usdc
          7).isReady = true) ∧
      ((checkPrivateFundsStatus (realEnv "" "") 1
          "0x1234567890123456789012345678901234567890"
          "0x9876543210987654321098765432109876543210" SupportedToken.usdc
          7).isReady = false →
        (checkPrivateFundsStatus (realEnv "" "") 1
          "0x1234567890123456789012345678901234567890"
          "0x9876543210987654321098765432109876543210" SupportedToken.usdc
          7).privacyPoolStatus = PrivacyPoolStatus.notInitialized)) :=
  ⟨rfl, rfl,
    checkPrivateFundsStatus_readiness (realEnv "" "") 1
      "0x1234567890123456789012345678901234567890"
      "0x9876543210987654321098765432109876543210" SupportedToken.usdc 7 "0" "0"
      rfl rfl⟩

/-- C10: when both balance reads succeed, the snapshot always reports the
constant `mainWalletBalance = "0"` (the main-wallet balance is never
fetched) and `transactionState = IDLE`, whatever the inputs and fetched
balances are. -/
theorem checkPrivateFundsStatus_constant_mainBalance_and_idle
    (env : SdkEnv) (chainId : Int) (mainWalletAddress incognitoAddress : String)
    (token : SupportedToken) (now : Nat) (s i : String)
    (hs : env.getShieldedBalance mainWalletAddress token chainId = Except.ok s)
    (hi : env.getIncognitoBalance incognitoAddress token chainId = Except.ok i) :
    (checkPrivateFundsStatus env chainId mainWalletAddress incognitoAddress token
        now).mainWalletBalance = "0" ∧
    (checkPrivateFundsStatus env chainId mainWalletAddress incognitoAddress token
        now).transactionState = TransactionState.idle := by
  simp [checkPrivateFundsStatus, hs, hi]

/-- Witness for C10 at a concrete input, reusing the real mock reads. -/
theorem checkPrivateFundsStatus_constant_mainBalance_and_idle_witness :
    (realEnv "" "").getShieldedBalance "0x1234567890123456789012345678901234567890"
        SupportedToken.usdc 1 = Except.ok "0" ∧
    (realEnv "" "").getIncognitoBalance "0x9876543210987654321098765432109876543210"
        SupportedToken.usdc 1 = Except.ok "0" ∧
    ((checkPrivateFundsStatus (realEnv "" "") 1
        "0x1234567890123456789012345678901234567890"
        "0x9876543210987654321098765432109876543210" SupportedToken.usdc
        7).mainWalletBalance = "0" ∧
      (checkPrivateFundsStatus (realEnv "" "") 1
        "0x1234567890123456789012345678901234567890"
        "0x9876543210987654321098765432109876543210" SupportedToken.usdc
        7).transactionState = TransactionState.idle) :=
  ⟨rfl, rfl,
    checkPrivateFundsStatus_constant_mainBalance_and_idle (realEnv "" "") 1
      "0x1234567890123456789012345678901234567890"
      "0x9876543210987654321098765432109876543210" SupportedToken.usdc 7 "0" "0"
      rfl rfl⟩

/-! ## Claims about input validation -/

/-- C5 (counterexample): the claim "non-numeric amounts fail with
`InvalidInput`" is false.  `parseFloat "abc"` is `NaN`, and JS `NaN <= 0`
is `false`, so the amount guard `!amount || parseFloat(amount) <= 0` lets
`"abc"` through: both `shieldTokens` and `unshieldTokens`, called with a
well-formed address and amount `"abc"`, submit successfully instead of
failing. -/
theorem shield_unshield_accept_non_numeric_amount :
    parseFloat "abc" = JSNumber.nan ∧
    matchesAddressRegex "0x1234567890123456789012345678901234567890" = true ∧
    shieldTokens "" "0x1234567890123456789012345678901234567890"
        SupportedToken.usdc "abc" 1 =
      Except.ok { txHash := mockTxHash "", state := TransactionState.pending } ∧
    unshieldTokens "" "0x1234567890123456789012345678901234567890"
        SupportedToken.usdc "abc" 1 =
      Except.ok { txHash := mockTxHash "", state := TransactionState.pending } :=
  ⟨rfl, by decide, rfl, rfl⟩

/-- C5 (amended): for every amount string that is empty or whose JS
`parseFloat` value satisfies `<= 0` — which covers every representation of
zero and of a negative number, but **not** non-numeric strings, whose
`parseFloat` is `NaN` — both `shieldTokens` and `unshieldTokens`, called
with a well-formed address, fail with the `Invalid amount` error, for every
randomness (hence before any external submission). -/
theorem shield_unshield_reject_nonpositive_amount
    (rnd walletAddress : String) (token : SupportedToken) (amount : String)
    (chainId : Int)
    (haddr : matchesAddressRegex walletAddress = true)
    (hamt : amount = "" ∨ (parseFloat amount).leZero = true) :
    shieldTokens rnd walletAddress token amount chainId =
      Except.error "Invalid amount" ∧
    unshieldTokens rnd walletAddress token amount chainId =
      Except.error "Invalid amount" := by
  have hne : (walletAddress == "") = false := by
    rcases hbe : walletAddress == "" with _ | _
    · rfl
    · have : walletAddress = "" := by simpa using hbe
      rw [this] at haddr
      simp [matchesAddressRegex, matchesAddressList] at haddr
  constructor <;>
    · simp [shieldTokens, unshieldTokens, haddr, hne]
      intro hE
      rcases hamt with h | h
      · rw [h] at hE; exact absurd hE (by decide)
      · exact h

/-- Witness for the amended C5 at concrete inputs: amount `"0"` (and, via
`parseFloat`, any zero) is rejected by both operations. -/
theorem shield_unshield_reject_nonpositive_amount_witness :
    matchesAddressRegex "0x1234567890123456789012345678901234567890" = true ∧
    ("0" = "" ∨ (parseFloat "0").leZero = true) ∧
    (shieldTokens "r" "0x1234567890123456789012345678901234567890"
        SupportedToken.usdc "0" 1 = Except.error "Invalid amount" ∧
      unshieldTokens "r" "0x1234567890123456789012345678901234567890"
        SupportedToken.usdc "0" 1 = Except.error "Invalid amount") :=
  ⟨by decide, Or.inr (by decide),
    shield_unshield_reject_nonpositive_amount "r"
      "0x1234567890123456789012345678901234567890" SupportedToken.usdc "0" 1
      (by decide) (Or.inr (by decide))⟩

/-- C6: every string that does not match `^0x[a-fA-F0-9]{40}$` (the empty
string included) is rejected with the respective `Invalid …` error by every
operation that takes it as a required address — `shieldTokens`,
`unshieldTokens`, `deriveIncognitoAddress`, `getShieldedBalance`,
`getIncognitoBalance` — for every randomness, token, amount and chain id
(hence before any external call). -/
theorem invalid_address_rejected_everywhere
    (s : String) (h : matchesAddressRegex s = false)
    (rnd : String) (token : SupportedToken) (amount : String) (chainId : Int) :
    shieldTokens rnd s token amount chainId =
      Except.error "Invalid wallet address" ∧
    unshieldTokens rnd s token amount chainId =
      Except.error "Invalid destination address" ∧
    deriveIncognitoAddress s chainId =
      Except.error "Invalid main wallet address" ∧
    getShieldedBalance s token chainId =
      Except.error "Invalid wallet address" ∧
    getIncognitoBalance s token chainId =
      Except.error "Invalid incognito address" := by
  refine ⟨?_, ?_, ?_, ?_, ?_⟩ <;>
    simp [shieldTokens, unshieldTokens, deriveIncognitoAddress,
      getShieldedBalance, getIncognitoBalance, h]

/-- Witness for C6 at a concrete input: the empty string is rejected by all
five operations. -/
theorem invalid_address_rejected_everywhere_witness :
    matchesAddressRegex "" = false ∧
    (shieldTokens "r" "" SupportedToken.usdc "1000" 1 =
        Except.error "Invalid wallet address" ∧
      unshieldTokens "r" "" SupportedToken.usdc "1000" 1 =
        Except.error "Invalid destination address" ∧
      deriveIncognitoAddress "" 1 =
        Except.error "Invalid main wallet address" ∧
      getShieldedBalance "" SupportedToken.usdc 1 =
        Except.error "Invalid wallet address" ∧
      getIncognitoBalance "" SupportedToken.usdc 1 =
        Except.error "Invalid incognito address") :=
  ⟨by decide,
    invalid_address_rejected_everywhere "" (by decide) "r" SupportedToken.usdc
      "1000" 1⟩

/-! ## Claims about the orchestration service -/

/-- C7: whenever the underlying call inside `preparePrivateFunds`,
`unshieldForTrading`, `exitPrivatePosition` or `deriveIncognitoWallet`
throws, the operation rethrows an error whose message is the respective
phase-identifying prefix concatenated with the cause's message, so the root
cause's message is always retained. -/
theorem phase_context_error_wrapping
    (env : SdkEnv) (chainId : Int) (mainWalletAddress : String)
    (w : IncognitoWallet) (config : PrivateTradeConfig) (label : Option String)
    (now : Nat) (e : String) :
    (env.shieldTokens mainWalletAddress config.token config.amount chainId =
        Except.error e →
      preparePrivateFunds env chainId mainWalletAddress config now =
        Except.error ("Failed to prepare private funds: " ++ e)) ∧
    (env.unshieldTokens w.address config.token config.amount chainId =
        Except.error e →
      unshieldForTrading env chainId w config now =
        Except.error ("Failed to unshield for trading: " ++ e)) ∧
    (env.shieldTokens w.address config.token config.amount chainId =
        Except.error e →
      exitPrivatePosition env chainId w config now =
        Except.error ("Failed to exit private position: " ++ e)) ∧
    (env.deriveIncognitoAddress mainWalletAddress chainId = Except.error e →
      deriveIncognitoWallet env chainId mainWalletAddress label now =
        Except.error ("Failed to derive incognito wallet: " ++ e)) := by
  refine ⟨fun h => ?_, fun h => ?_, fun h => ?_, fun h => ?_⟩ <;>
    simp [preparePrivateFunds, unshieldForTrading, exitPrivatePosition,
      deriveIncognitoWallet, h]

/-- Witness for C7 at a concrete input: against the real modules the empty
main address makes the shield submission throw `Invalid wallet address`,
and `preparePrivateFunds` rethrows it with the phase prefix. -/
theorem phase_context_error_wrapping_witness :
    (realEnv "" "").shieldTokens "" SupportedToken.usdc "1000" 1 =
      Except.error "Invalid wallet address" ∧
    preparePrivateFunds (realEnv "" "") 1 ""
        { tradeType := TradeType.entry, token := SupportedToken.usdc,
          amount := "1000", slippageTolerance := 0 } 7 =
      Except.error "Failed to prepare private funds: Invalid wallet address" :=
  ⟨rfl,
    (phase_context_error_wrapping (realEnv "" "") 1 ""
        { address := "", mainWalletAddress := "", chainId := 1, isActive := true,
          createdAt := 0 }
        { tradeType := TradeType.entry, token := SupportedToken.usdc,
          amount := "1000", slippageTolerance := 0 }
        none 7 "Invalid wallet address").1 rfl⟩

/-- C8: address routing of the flow phases, observed through a recording
environment whose submissions embed the address they were handed in the
returned hash: for every main wallet address, incognito wallet and
configuration, `preparePrivateFunds` hands the main wallet address to the
shield call, `exitPrivatePosition` hands the incognito wallet's address to
the shield call (never the other way around), and `unshieldForTrading`
hands the incognito wallet's address to the unshield call and records it as
the returned transaction's `destinationAddress`. -/
theorem flow_phase_address_routing
    (chainId : Int) (mainWalletAddress : String) (w : IncognitoWallet)
    (config : PrivateTradeConfig) (now : Nat) :
    preparePrivateFunds recordingEnv chainId mainWalletAddress config now =
      Except.ok
        { txHash := "src:" ++ mainWalletAddress, token := config.token,
          amount := config.amount, state := TransactionState.pending,
          startedAt := now } ∧
    exitPrivatePosition recordingEnv chainId w config now =
      Except.ok
        { txHash := "src:" ++ w.address, token := config.token,
          amount := config.amount, state := TransactionState.pending,
          startedAt := now } ∧
    unshieldForTrading recordingEnv chainId w config now =
      Except.ok
        { txHash := "dst:" ++ w.address, token := config.token,
          amount := config.amount, destinationAddress := w.address,
          state := TransactionState.pending, startedAt := now } :=
  ⟨rfl, rfl, rfl⟩

/-! ## Claims about address derivation -/

lemma hexDigitChar_isHex (d : Nat) (h : d < 16) :
    isHexDigit (hexDigitChar d) = true := by
  interval_cases d <;> decide

lemma natToHexAux_all_hex (fuel : Nat) : ∀ n : Nat,
    (natToHexAux fuel n).all isHexDigit = true := by
  induction fuel with
  | zero => intro n; rfl
  | succ f ih =>
    intro n
    simp only [natToHexAux]
    by_cases h : n = 0
    · simp [h]
    · rw [if_neg h]
      rw [List.all_append]
      rw [ih (n / 16)]
      simp [hexDigitChar_isHex (n % 16) (Nat.mod_lt _ (by norm_num))]

lemma natToHexAux_length_le (fuel : Nat) : ∀ n k : Nat, n < 16 ^ k →
    (natToHexAux fuel n).length ≤ k := by
  induction fuel with
  | zero => intro n k _; simp [natToHexAux]
  | succ f ih =>
    intro n k hk
    simp only [natToHexAux]
    by_cases h : n = 0
    · simp [h]
    · rw [if_neg h]
      rcases k with _ | k
      · simp at hk; omega
      · have hdiv : n / 16 < 16 ^ k := by
          rw [Nat.div_lt_iff_lt_mul (by norm_num : 0 < 16)]
          rw [pow_succ] at hk
          exact hk
        have := ih (n / 16) k hdiv
        simp only [List.length_append, List.length_cons, List.length_nil]
        omega

lemma jsToInt32_bounds (n : Int) :
    -(2 ^ 31) ≤ jsToInt32 n ∧ jsToInt32 n < 2 ^ 31 := by
  unfold jsToInt32
  have h1 : 0 ≤ (n + 2 ^ 31) % 2 ^ 32 := Int.emod_nonneg _ (by norm_num)
  have h2 : (n + 2 ^ 31) % 2 ^ 32 < 2 ^ 32 := Int.emod_lt_of_pos _ (by norm_num)
  have e1 : (2 : Int) ^ 31 = 2147483648 := by norm_num
  have e2 : (2 : Int) ^ 32 = 4294967296 := by norm_num
  omega

lemma foldl_hashStep_bounds (l : List Char) : ∀ h0 : Int,
    -(2 ^ 31) ≤ h0 → h0 < 2 ^ 31 →
    -(2 ^ 31) ≤ l.foldl hashStep h0 ∧ l.foldl hashStep h0 < 2 ^ 31 := by
  induction l with
  | nil => intro h0 a b; exact ⟨a, b⟩
  | cons c rest ih =>
    intro h0 _ _
    rw [List.foldl_cons]
    exact ih (hashStep h0 c) (jsToInt32_bounds _).1 (jsToInt32_bounds _).2

lemma hash_natAbs_lt (l : List Char) : (l.foldl hashStep 0).natAbs < 16 ^ 8 := by
  have hb := foldl_hashStep_bounds l 0 (by norm_num) (by norm_num)
  have e1 : (2 : Int) ^ 31 = 2147483648 := by norm_num
  have e2 : (16 : Nat) ^ 8 = 4294967296 := by norm_num
  omega

lemma natToHex_all_hex (n : Nat) : (natToHex n).all isHexDigit = true := by
  unfold natToHex
  by_cases h : n = 0
  · rw [if_pos h]; decide
  · rw [if_neg h]; exact natToHexAux_all_hex (n + 1) n

lemma natToHex_length_le (n : Nat) (h : n < 16 ^ 8) : (natToHex n).length ≤ 8 := by
  unfold natToHex
  by_cases h0 : n = 0
  · rw [if_pos h0]; decide
  · rw [if_neg h0]; exact natToHexAux_length_le (n + 1) n 8 h

lemma all_replicate_of (c : Char) (p : Char → Bool) (hp : p c = true) (n : Nat) :
    (List.replicate n c).all p = true := by
  rw [List.all_eq_true]
  intro x hx
  rw [List.eq_of_mem_replicate hx]
  exact hp

lemma simpleHash_shape (input : String) :
    (simpleHash input).length = 40 ∧ (simpleHash input).all isHexDigit = true := by
  unfold simpleHash
  have hlt : (input.data.foldl hashStep 0).natAbs < 16 ^ 8 :=
    hash_natAbs_lt input.data
  have hlen8 :
      (padStartList (natToHex (input.data.foldl hashStep 0).natAbs) 8 '0').length
        = 8 := by
    have := natToHex_length_le _ hlt
    simp only [padStartList, List.length_append, List.length_replicate]
    omega
  have hallhex :
      (padStartList (natToHex (input.data.foldl hashStep 0).natAbs) 8 '0').all
        isHexDigit = true := by
    rw [padStartList, List.all_append]
    rw [all_replicate_of '0' isHexDigit (by decide)]
    rw [natToHex_all_hex]
    rfl
  set hex := padStartList (natToHex (input.data.foldl hashStep 0).natAbs) 8 '0'
    with hhex
  have hcat : (hex ++ hex ++ hex ++ hex ++ hex).length = 40 := by
    simp only [List.length_append, hlen8]
  have htake : (hex ++ hex ++ hex ++ hex ++ hex).take 40
      = hex ++ hex ++ hex ++ hex ++ hex :=
    List.take_of_length_le (le_of_eq hcat)
  refine ⟨?_, ?_⟩
  · rw [htake, hcat]
  · rw [htake]
    simp only [List.all_append, hallhex]
    rfl

lemma matchesAddressRegex_ne_empty {s : String}
    (h : matchesAddressRegex s = true) : (s == "") = false := by
  rcases hbe : s == "" with _ | _
  · rfl
  · have hs : s = "" := by simpa using hbe
    rw [hs] at h
    simp [matchesAddressRegex, matchesAddressList] at h

/-- C4 (counterexample): the derivation contract fails in two ways on the
32-bit mock hash.  First, two distinct valid addresses collide: the bodies
`0a…` and `1B…` differ only in their first two characters, and
`31 * 48 + 97 = 31 * 49 + 66`, so the 31-based hash — hence the derived
address — is identical for both.  Second, the output can equal the input:
`0x4078663d4078663d4078663d4078663d4078663d` derives to itself on chain 1
(a fixed point of the derivation). -/
theorem deriveIncognitoAddress_collision_and_fixed_point :
    matchesAddressRegex "0x0a00000000000000000000000000000000000000" = true ∧
    matchesAddressRegex "0x1B00000000000000000000000000000000000000" = true ∧
    ("0x0a00000000000000000000000000000000000000" : String) ≠
      "0x1B00000000000000000000000000000000000000" ∧
    deriveIncognitoAddress "0x0a00000000000000000000000000000000000000" 1 =
      deriveIncognitoAddress "0x1B00000000000000000000000000000000000000" 1 ∧
    matchesAddressRegex "0x4078663d4078663d4078663d4078663d4078663d" = true ∧
    deriveIncognitoAddress "0x4078663d4078663d4078663d4078663d4078663d" 1 =
      Except.ok "0x4078663d4078663d4078663d4078663d4078663d" :=
  ⟨by decide, by decide, by decide, rfl, by decide, rfl⟩

/-- C4 (amended): for every `publicAddress` of the 20-byte hex shape and
every `networkId`, the derivation succeeds and returns a syntactically
valid 20-byte hex address, and it is deterministic (the embedding is a pure
function of `(publicAddress, networkId)`, so identical inputs give the
identical output by reflexivity); however, distinct inputs can yield the
same output and the output can equal `publicAddress` — the injectivity and
non-identity clauses of the original claim are refuted by the
counterexample above. -/
theorem deriveIncognitoAddress_deterministic_valid_output
    (mainWalletAddress : String) (chainId : Int)
    (h : matchesAddressRegex mainWalletAddress = true) :
    ∃ out : String,
      deriveIncognitoAddress mainWalletAddress chainId = Except.ok out ∧
      matchesAddressRegex out = true := by
  have hne := matchesAddressRegex_ne_empty h
  refine ⟨String.mk ('0' :: 'x' ::
    simpleHash (mainWalletAddress ++ toString chainId)), ?_, ?_⟩
  · unfold deriveIncognitoAddress
    rw [hne, h]
    rfl
  · have hshape := simpleHash_shape (mainWalletAddress ++ toString chainId)
    show matchesAddressList ('0' :: 'x' ::
      simpleHash (mainWalletAddress ++ toString chainId)) = true
    have hred : matchesAddressList ('0' :: 'x' ::
        simpleHash (mainWalletAddress ++ toString chainId)) =
        (decide ((simpleHash (mainWalletAddress ++ toString chainId)).length = 40)
          && (simpleHash (mainWalletAddress ++ toString chainId)).all isHexDigit) :=
      rfl
    rw [hred, hshape.1, hshape.2]
    rfl

/-- Witness for the amended C4 at a concrete input: derivation from the
canonical test wallet on chain 1 succeeds with a valid-shaped address. -/
theorem deriveIncognitoAddress_deterministic_valid_output_witness :
    matchesAddressRegex "0x1234567890123456789012345678901234567890" = true ∧
    (∃ out : String,
      deriveIncognitoAddress "0x1234567890123456789012345678901234567890" 1 =
        Except.ok out ∧
      matchesAddressRegex out = true) :=
  ⟨by decide,
    deriveIncognitoAddress_deterministic_valid_output
      "0x1234567890123456789012345678901234567890" 1 (by decide)⟩

/-! ## Claims about the confirmation tracker -/

lemma waitLoop_unfold (poll : Nat → Except String TransactionState)
    (maxTime n : Nat) :
    waitLoop poll maxTime n =
      if n * POLLING_INTERVAL < maxTime then
        match poll n with
        | .error e => .error e
        | .ok s =>
          if s = TransactionState.completed then .ok s
          else if s = TransactionState.failed then .error "Transaction failed"
          else waitLoop poll maxTime (n + 1)
      else .error "Transaction confirmation timeout" := by
  by_cases h : n * POLLING_INTERVAL < maxTime
  · rw [waitLoop, dif_pos h, if_pos h]
  · rw [waitLoop, dif_neg h, if_neg h]

lemma waitLoop_first_terminal (poll : Nat → Except String TransactionState)
    (maxTime k : Nat) :
    ∀ n, n ≤ k → k * POLLING_INTERVAL < maxTime →
      (∀ j, n ≤ j → j < k → nonTerminal (poll j)) →
      ((poll k = Except.ok TransactionState.completed →
          waitLoop poll maxTime n = Except.ok TransactionState.completed) ∧
        (poll k = Except.ok TransactionState.failed →
          waitLoop poll maxTime n = Except.error "Transaction failed")) := by
  intro n
  generalize hd : k - n = d
  revert hd
  induction d generalizing n with
  | zero =>
    intro hd hnk hk _
    have hn : n = k := by omega
    subst hn
    constructor <;> intro hp <;> rw [waitLoop_unfold, if_pos hk, hp] <;> simp
  | succ m ih =>
    intro hd hnk hk hpre
    have hkn : n < k := by omega
    have hn : n * POLLING_INTERVAL < maxTime := by
      have hmul : n * POLLING_INTERVAL ≤ k * POLLING_INTERVAL :=
        Nat.mul_le_mul_right _ (by omega)
      omega
    obtain ⟨s, hs, hc, hf⟩ := hpre n le_rfl hkn
    have hrec : waitLoop poll maxTime n = waitLoop poll maxTime (n + 1) := by
      rw [waitLoop_unfold, if_pos hn, hs]
      simp [hc, hf]
    rw [hrec]
    exact ih (n + 1) (by omega) (by omega) hk
      (fun j hj1 hj2 => hpre j (by omega) hj2)

lemma waitLoop_timeout (poll : Nat → Except String TransactionState)
    (maxTime : Nat) :
    ∀ f n, maxTime ≤ (n + f) * POLLING_INTERVAL →
      (∀ j, n ≤ j → j * POLLING_INTERVAL < maxTime → nonTerminal (poll j)) →
      waitLoop poll maxTime n = Except.error "Transaction confirmation timeout" := by
  intro f
  induction f with
  | zero =>
    intro n hmax _
    rw [Nat.add_zero] at hmax
    rw [waitLoop_unfold, if_neg (by omega)]
  | succ f ih =>
    intro n hmax hpre
    by_cases hc : n * POLLING_INTERVAL < maxTime
    · obtain ⟨s, hs, hcs, hfs⟩ := hpre n le_rfl hc
      rw [waitLoop_unfold, if_pos hc, hs]
      simp only [if_neg hcs, if_neg hfs]
      have harith : n + (f + 1) = (n + 1) + f := by omega
      rw [harith] at hmax
      exact ih (n + 1) hmax (fun j hj1 hj2 => hpre j (by omega) hj2)
    · rw [waitLoop_unfold, if_neg hc]

/-- C2: `waitForTransactionConfirmation` has exactly the three claimed
outcomes, against the deadline `effectiveMaxTime maxWaitTime` (70000 ms
when no budget is given).  If the first terminal poll within the deadline
is `completed` the call returns it; if it is `failed` the call fails with
the `Transaction failed` error; and if every poll within the deadline is
non-terminal the call fails with the distinct
`Transaction confirmation timeout` error. -/
theorem waitForTransactionConfirmation_trichotomy
    (poll : Nat → Except String TransactionState) (maxWaitTime : Option Nat) :
    effectiveMaxTime none = 70000 ∧
    (∀ k, k * POLLING_INTERVAL < effectiveMaxTime maxWaitTime →
      poll k = Except.ok TransactionState.completed →
      (∀ j, j < k → nonTerminal (poll j)) →
      waitForTransactionConfirmation poll maxWaitTime =
        Except.ok TransactionState.completed) ∧
    (∀ k, k * POLLING_INTERVAL < effectiveMaxTime maxWaitTime →
      poll k = Except.ok TransactionState.failed →
      (∀ j, j < k → nonTerminal (poll j)) →
      waitForTransactionConfirmation poll maxWaitTime =
        Except.error "Transaction failed") ∧
    ((∀ k, k * POLLING_INTERVAL < effectiveMaxTime maxWaitTime →
        nonTerminal (poll k)) →
      waitForTransactionConfirmation poll maxWaitTime =
        Except.error "Transaction confirmation timeout") := by
  refine ⟨rfl, ?_, ?_, ?_⟩
  · intro k hk hcomp hpre
    exact (waitLoop_first_terminal poll _ k 0 (Nat.zero_le k) hk
      (fun j _ hj => hpre j hj)).1 hcomp
  · intro k hk hfail hpre
    exact (waitLoop_first_terminal poll _ k 0 (Nat.zero_le k) hk
      (fun j _ hj => hpre j hj)).2 hfail
  · intro hpre
    refine waitLoop_timeout poll _ (effectiveMaxTime maxWaitTime) 0 ?_
      (fun j _ hj => hpre j hj)
    unfold POLLING_INTERVAL
    omega

/-- Witness for C2 at concrete inputs: with a 2000 ms budget a first poll
of `completed` returns it, a first poll of `failed` raises the operation
failure, and a provider stuck on `confirming` raises the timeout error. -/
theorem waitForTransactionConfirmation_trichotomy_witness :
    (0 * POLLING_INTERVAL < effectiveMaxTime (some 2000)) ∧
    waitForTransactionConfirmation (fun _ => Except.ok TransactionState.completed)
      (some 2000) = Except.ok TransactionState.completed ∧
    waitForTransactionConfirmation (fun _ => Except.ok TransactionState.failed)
      (some 2000) = Except.error "Transaction failed" ∧
    waitForTransactionConfirmation (fun _ => Except.ok TransactionState.confirming)
      (some 2000) = Except.error "Transaction confirmation timeout" :=
  ⟨by decide,
    (waitForTransactionConfirmation_trichotomy
        (fun _ => Except.ok TransactionState.completed) (some 2000)).2.1 0
      (by decide) rfl (fun j hj => absurd hj (by omega)),
    (waitForTransactionConfirmation_trichotomy
        (fun _ => Except.ok TransactionState.failed) (some 2000)).2.2.1 0
      (by decide) rfl (fun j hj => absurd hj (by omega)),
    (waitForTransactionConfirmation_trichotomy
        (fun _ => Except.ok TransactionState.confirming) (some 2000)).2.2.2
      (fun k _ => ⟨TransactionState.confirming, rfl, by decide, by decide⟩)⟩

/-- C9: `maxWaitTime` is tested for JS falsiness, not absence — both an
omitted budget and an explicit `0` yield the 70000 ms default deadline, so
a zero-millisecond wait budget cannot be requested and the first status
poll is always consulted before any timeout (a `completed` first poll
returns `completed` even under `maxWaitTime = 0`). -/
theorem waitForTransactionConfirmation_zero_budget_defaulted
    (poll : Nat → Except String TransactionState) :
    effectiveMaxTime none = 70000 ∧
    effectiveMaxTime (some 0) = 70000 ∧
    waitForTransactionConfirmation poll (some 0) =
      waitForTransactionConfirmation poll none ∧
    (poll 0 = Except.ok TransactionState.completed →
      waitForTransactionConfirmation poll (some 0) =
        Except.ok TransactionState.completed) := by
  refine ⟨rfl, rfl, rfl, fun hp => ?_⟩
  exact (waitLoop_first_terminal poll (effectiveMaxTime (some 0)) 0 0 le_rfl
    (by decide) (fun j hj1 hj2 => absurd hj2 (by omega))).1 hp

/-- Witness for C9 at a concrete input: a first poll of `completed` under
an explicit zero budget still returns `completed`. -/
theorem waitForTransactionConfirmation_zero_budget_defaulted_witness :
    ((fun _ : Nat => Except.ok (ε := String) TransactionState.completed) 0 =
      Except.ok TransactionState.completed) ∧
    waitForTransactionConfirmation
      (fun _ => Except.ok TransactionState.completed) (some 0) =
        Except.ok TransactionState.completed :=
  ⟨rfl,
    (waitForTransactionConfirmation_zero_budget_defaulted
      (fun _ => Except.ok TransactionState.completed)).2.2.2 rfl⟩

end PrivateTrading
